import Mathlib

/-!
Verification development for the fovis_ros pose-fusion layer
(`src/fovis_ros/src/odometer_base.hpp`).

The per-frame `process` routine, the keepalive `publishLastKnownTf`, the
transform lookup `getBaseToSensorTransform` and the parameter coercion of
`loadParams` are embedded shallowly.  Scalars are modelled by `F`, the
rationals extended with the IEEE special values `+inf`, `-inf` and `nan`
(the code computes on doubles; overflow and rounding are abstracted away,
but the special-value propagation rules that the NaN check at lines
178-196 of the source depends on are kept).  Rigid transforms
(`tf::Transform`) are modelled as a rotation quaternion plus an origin
vector; composition, inverse and rotation follow the library semantics for
the unit-norm orientations that the data model guarantees.  The
matrix-to-quaternion extraction `tf::Transform::getRotation` (used by the
NaN check, by `tf::poseTFToMsg` and by the twist computation) is modelled
by `tfGetRotation`: on a unit quaternion the matrix round trip reduces to
the sign normalization implemented there, and any non-finite component
makes every extracted component NaN (the matrix entries contain
`inf * 0 = nan` or propagate an input NaN into the square root of the
extraction).

The angular-twist extraction (`tf::Quaternion::getAngle` /
`tf::Quaternion::getAxis`, source lines 231-237) involves `acos` and
`sqrt`, so those values live in `FR`, the reals extended with the same
special values; every branch condition is still decided on rational data.
-/

/-- Scalar model: rationals extended with the IEEE special values. -/
inductive F : Type where
  | fin : ℚ → F
  | pinf : F
  | ninf : F
  | nan : F
deriving DecidableEq, Repr

namespace F

/-- IEEE addition on the scalar model. -/
def add : F → F → F
  | nan, _ => nan
  | _, nan => nan
  | fin a, fin b => fin (a + b)
  | fin _, pinf => pinf
  | fin _, ninf => ninf
  | pinf, fin _ => pinf
  | ninf, fin _ => ninf
  | pinf, pinf => pinf
  | ninf, ninf => ninf
  | pinf, ninf => nan
  | ninf, pinf => nan

/-- IEEE negation on the scalar model. -/
def neg : F → F
  | fin a => fin (-a)
  | pinf => ninf
  | ninf => pinf
  | nan => nan

/-- IEEE multiplication on the scalar model (`0 * inf = nan`). -/
def mul : F → F → F
  | nan, _ => nan
  | _, nan => nan
  | fin a, fin b => fin (a * b)
  | fin a, pinf => if 0 < a then pinf else if a < 0 then ninf else nan
  | fin a, ninf => if 0 < a then ninf else if a < 0 then pinf else nan
  | pinf, fin b => if 0 < b then pinf else if b < 0 then ninf else nan
  | ninf, fin b => if 0 < b then ninf else if b < 0 then pinf else nan
  | pinf, pinf => pinf
  | ninf, ninf => pinf
  | pinf, ninf => ninf
  | ninf, pinf => ninf

instance : Add F := ⟨add⟩
instance : Neg F := ⟨neg⟩
instance : Mul F := ⟨mul⟩

/-- IEEE subtraction on the scalar model. -/
def sub (a b : F) : F := a + (-b)

instance : Sub F := ⟨sub⟩

/-- IEEE division on the scalar model (used by `Matrix3x3::setRotation`
for the `2 / length2` normalization; there is no signed zero in the
model, so a nonzero finite over zero gives the infinity of its sign). -/
def div : F → F → F
  | nan, _ => nan
  | _, nan => nan
  | fin a, fin b => if b = 0 then (if a = 0 then nan else if 0 < a then pinf else ninf)
                    else fin (a / b)
  | fin _, pinf => fin 0
  | fin _, ninf => fin 0
  | pinf, fin b => if 0 ≤ b then pinf else ninf
  | ninf, fin b => if 0 ≤ b then ninf else pinf
  | pinf, pinf => nan
  | pinf, ninf => nan
  | ninf, pinf => nan
  | ninf, ninf => nan

/-- Division of a model scalar by a rational (the only divisions the code
performs are by the time delta `dt`, a finite double). -/
def divQ : F → ℚ → F
  | nan, _ => nan
  | fin a, d => if d = 0 then (if a = 0 then nan else if 0 < a then pinf else ninf)
                else fin (a / d)
  | pinf, d => if d = 0 then pinf else if 0 < d then pinf else ninf
  | ninf, d => if d = 0 then ninf else if 0 < d then ninf else pinf

/-- Model of `std::isnan`. -/
def isnan : F → Bool
  | nan => true
  | _ => false

/-- A scalar is finite when it carries a rational payload. -/
def isFin : F → Bool
  | fin _ => true
  | _ => false

/-- IEEE comparison of a model scalar with a rational constant
(`nan` compares false). -/
def ltQ : F → ℚ → Bool
  | fin a, c => decide (a < c)
  | ninf, _ => true
  | pinf, _ => false
  | nan, _ => false

end F

/-- A 3-vector of model scalars (`tf::Vector3`). -/
structure Vec3 : Type where
  x : F
  y : F
  z : F
deriving DecidableEq, Repr

namespace Vec3

/-- Componentwise addition. -/
def add (a b : Vec3) : Vec3 := ⟨a.x + b.x, a.y + b.y, a.z + b.z⟩

/-- Componentwise negation. -/
def neg (a : Vec3) : Vec3 := ⟨-a.x, -a.y, -a.z⟩

instance : Add Vec3 := ⟨add⟩
instance : Neg Vec3 := ⟨neg⟩

/-- Scaling by a model scalar (`tf::Vector3::operator*`). -/
def smul (a : Vec3) (c : F) : Vec3 := ⟨a.x * c, a.y * c, a.z * c⟩

/-- The zero vector. -/
def zero : Vec3 := ⟨F.fin 0, F.fin 0, F.fin 0⟩

/-- Embedding of a rational vector. -/
def ofQ (x y z : ℚ) : Vec3 := ⟨F.fin x, F.fin y, F.fin z⟩

end Vec3

/-- A quaternion of model scalars (`tf::Quaternion`), stored `x y z w`. -/
structure Quat : Type where
  x : F
  y : F
  z : F
  w : F
deriving DecidableEq, Repr

namespace Quat

/-- The identity quaternion. -/
def id : Quat := ⟨F.fin 0, F.fin 0, F.fin 0, F.fin 1⟩

/-- Hamilton product. -/
def mul (p q : Quat) : Quat :=
  ⟨p.w * q.x + p.x * q.w + p.y * q.z - p.z * q.y,
   p.w * q.y - p.x * q.z + p.y * q.w + p.z * q.x,
   p.w * q.z + p.x * q.y - p.y * q.x + p.z * q.w,
   p.w * q.w - p.x * q.x - p.y * q.y - p.z * q.z⟩

instance : Mul Quat := ⟨mul⟩

/-- Conjugate (the inverse rotation for a unit quaternion). -/
def conj (q : Quat) : Quat := ⟨-q.x, -q.y, -q.z, q.w⟩

/-- Componentwise negation (the same rotation, opposite representative). -/
def negQ (q : Quat) : Quat := ⟨-q.x, -q.y, -q.z, -q.w⟩

/-- Action of a rotation on a vector, exactly as `tf::Transform` applies
it: the basis matrix is built from the quaternion by
`Matrix3x3::setRotation` (`d = length2`, `s = 2/d`, then the products
below) and then multiplied row-by-row onto the vector.  Computing the
entries in the scalar model keeps the special-value behavior of the
library (for example, an infinite vector component meets an exact zero
entry and produces NaN in that row). -/
def rotate (q : Quat) (v : Vec3) : Vec3 :=
  let d := q.x * q.x + q.y * q.y + q.z * q.z + q.w * q.w
  let s := (F.fin 2).div d
  let xs := q.x * s
  let ys := q.y * s
  let zs := q.z * s
  let wx := q.w * xs
  let wy := q.w * ys
  let wz := q.w * zs
  let xx := q.x * xs
  let xy := q.x * ys
  let xz := q.x * zs
  let yy := q.y * ys
  let yz := q.y * zs
  let zz := q.z * zs
  ⟨(F.fin 1 - (yy + zz)) * v.x + (xy - wz) * v.y + (xz + wy) * v.z,
   (xy + wz) * v.x + (F.fin 1 - (xx + zz)) * v.y + (yz - wx) * v.z,
   (xz - wy) * v.x + (yz + wx) * v.y + (F.fin 1 - (xx + yy)) * v.z⟩

/-- Embedding of a rational quaternion. -/
def ofQ (x y z w : ℚ) : Quat := ⟨F.fin x, F.fin y, F.fin z, F.fin w⟩

/-- All four components finite. -/
def allFin (q : Quat) : Bool := q.x.isFin && q.y.isFin && q.z.isFin && q.w.isFin

end Quat

/-- A rigid transform (`tf::Transform`): rotation plus origin. -/
structure Transform : Type where
  rot : Quat
  origin : Vec3
deriving DecidableEq, Repr

namespace Transform

/-- The identity transform (`setIdentity`). -/
def id : Transform := ⟨Quat.id, Vec3.zero⟩

/-- Composition (`tf::Transform::operator*`): basis composes, the left
transform acts on the right origin. -/
def comp (a b : Transform) : Transform :=
  ⟨a.rot.mul b.rot, (a.rot.rotate b.origin) + a.origin⟩

/-- Inverse (`tf::Transform::inverse`): transposed basis applied to the
negated origin. -/
def inverse (a : Transform) : Transform :=
  ⟨a.rot.conj, a.rot.conj.rotate (-a.origin)⟩

/-- Embedding of a rational transform. -/
def ofQ (x y z w ox oy oz : ℚ) : Transform := ⟨Quat.ofQ x y z w, Vec3.ofQ ox oy oz⟩

end Transform

/-- Model of `tf::Transform::getRotation` (`Matrix3x3::getRotation`) for
the stored basis of a transform.  For a finite unit quaternion the matrix
round trip returns the representative whose leading extracted component is
nonnegative: when the matrix trace is positive (`3*w*w > x*x + y*y + z*z`)
the sign of `w` is normalized, otherwise the sign of the largest diagonal
axis component (bullet tie order `x`, then `y`, then `z`) is normalized.
Any non-finite component poisons every entry of the stored matrix, so the
extraction returns all NaN. -/
def tfGetRotation (q : Quat) : Quat :=
  match q with
  | ⟨F.fin x, F.fin y, F.fin z, F.fin w⟩ =>
    if 3 * (w * w) > x * x + y * y + z * z then
      if w < 0 then (Quat.ofQ x y z w).negQ else Quat.ofQ x y z w
    else
      -- diagonal entries of the rotation matrix of a unit quaternion
      let m00 := 2 * (w * w + x * x) - 1
      let m11 := 2 * (w * w + y * y) - 1
      let m22 := 2 * (w * w + z * z) - 1
      if m00 < m11 then
        if m11 < m22 then
          (if z < 0 then (Quat.ofQ x y z w).negQ else Quat.ofQ x y z w)
        else
          (if y < 0 then (Quat.ofQ x y z w).negQ else Quat.ofQ x y z w)
      else
        if m00 < m22 then
          (if z < 0 then (Quat.ofQ x y z w).negQ else Quat.ofQ x y z w)
        else
          (if x < 0 then (Quat.ofQ x y z w).negQ else Quat.ofQ x y z w)
  | _ => ⟨F.nan, F.nan, F.nan, F.nan⟩

/-- Model of the NaN check at source lines 178-196: `std::isnan` on the
three components of `getOrigin()` and the four components of the
quaternion extracted by `getRotation()`. -/
def nanCheckTf (t : Transform) : Bool :=
  let o := t.origin
  let q := tfGetRotation t.rot
  o.x.isnan || o.y.isnan || o.z.isnan ||
  q.x.isnan || q.y.isnan || q.z.isnan || q.w.isnan

/-- Unfolding lemma for the addition instance. -/
theorem F.add_def (a b : F) : a + b = F.add a b := rfl

/-- Unfolding lemma for the negation instance. -/
theorem F.neg_def (a : F) : -a = F.neg a := rfl

/-- Unfolding lemma for the multiplication instance. -/
theorem F.mul_def (a b : F) : a * b = F.mul a b := rfl

/-- Unfolding lemma for the subtraction instance. -/
theorem F.sub_def (a b : F) : a - b = F.add a (F.neg b) := rfl

/-- Unfolding lemma for the vector addition instance. -/
theorem Vec3.vadd_def (a b : Vec3) : a + b = Vec3.add a b := rfl

/-- Unfolding lemma for the vector negation instance. -/
theorem Vec3.vneg_def (a : Vec3) : -a = Vec3.neg a := rfl

/-- Unfolding lemma for the quaternion multiplication instance. -/
theorem Quat.qmul_def (p q : Quat) : p * q = Quat.mul p q := rfl

example : nanCheckTf Transform.id = false := by
  norm_num [nanCheckTf, tfGetRotation, Transform.id, Quat.id, Vec3.zero, Quat.ofQ, F.isnan]
example : nanCheckTf ⟨Quat.id, ⟨F.nan, F.fin 0, F.fin 0⟩⟩ = true := by
  norm_num [nanCheckTf, tfGetRotation, Quat.id, F.isnan]
example : nanCheckTf ⟨Quat.id, ⟨F.pinf, F.fin 0, F.fin 0⟩⟩ = false := by
  norm_num [nanCheckTf, tfGetRotation, Quat.id, Quat.ofQ, F.isnan]
example : nanCheckTf ⟨⟨F.pinf, F.fin 0, F.fin 0, F.fin 1⟩, Vec3.zero⟩ = true := by
  norm_num [nanCheckTf, tfGetRotation, Vec3.zero, F.isnan]

/-- Real-valued scalar with the IEEE special values, used for the
angular-twist magnitudes that pass through `acos` and `sqrt`. -/
inductive FR : Type where
  | fin : ℝ → FR
  | pinf : FR
  | ninf : FR
  | nan : FR

namespace FR

/-- Multiplication restricted to the cases the twist computation reaches
(finite times finite; any NaN propagates; infinities degrade to NaN here
because the sign tests of the full IEEE table are not needed on this
path). -/
noncomputable def mul : FR → FR → FR
  | fin a, fin b => fin (a * b)
  | _, _ => nan

end FR

/-- Embedding of a model scalar into the real-valued model. -/
noncomputable def fToR : F → FR
  | F.fin q => FR.fin (q : ℝ)
  | F.pinf => FR.pinf
  | F.ninf => FR.ninf
  | F.nan => FR.nan

/-- Division of a real-valued scalar by a rational scalar (the `/ dt` of
the twist computation; `dt` is a finite double there). -/
noncomputable def FR.divQ : FR → ℚ → FR
  | fin a, d => if d = 0 then (if a = 0 then nan else if 0 < a then pinf else ninf)
                else fin (a / (d : ℝ))
  | pinf, d => if d = 0 then pinf else if 0 < d then pinf else ninf
  | ninf, d => if d = 0 then ninf else if 0 < d then ninf else pinf
  | nan, _ => nan

/-- Model of `acos` applied to a model scalar (out-of-domain arguments and
special values give NaN, as IEEE `acos` does). -/
noncomputable def acosF : F → FR
  | F.fin q => if q < -1 ∨ 1 < q then FR.nan else FR.fin (Real.arccos (q : ℝ))
  | _ => FR.nan

/-- Model of `1 / sqrt x` on a model scalar (`btQuaternion::getAxis`
scales by the reciprocal square root of `1 - w*w`): negative arguments
give NaN, zero gives `+inf`, and special values follow IEEE. -/
noncomputable def invSqrtF : F → FR
  | F.fin q => if q < 0 then FR.nan else if q = 0 then FR.pinf
               else FR.fin (1 / Real.sqrt (q : ℝ))
  | F.pinf => FR.fin 0
  | F.ninf => FR.nan
  | F.nan => FR.nan

/-- A real-valued 3-vector for the angular twist components. -/
structure Vec3R : Type where
  x : FR
  y : FR
  z : FR

/-- The zero angular twist (the default value of the message fields). -/
noncomputable def Vec3R.zero : Vec3R := ⟨FR.fin 0, FR.fin 0, FR.fin 0⟩

/-- Model of `tf::Quaternion::getAngle`: `2 * acos(w)`. -/
noncomputable def getAngle (q : Quat) : FR :=
  FR.mul (FR.fin 2) (acosF q.w)

/-- Model of `tf::Quaternion::getAxis`: when `1 - w*w` falls below the
guard `10 * SIMD_EPSILON` (with `SIMD_EPSILON = 2^-52` for doubles) the
fallback axis `(1,0,0)` is returned, otherwise `(x,y,z)` scaled by the
reciprocal square root of `1 - w*w`. -/
noncomputable def getAxis (q : Quat) : Vec3R :=
  let s2 : F := (F.fin 1) - (q.w * q.w)
  if s2.ltQ (10 / 2 ^ 52) then ⟨FR.fin 1, FR.fin 0, FR.fin 0⟩
  else
    let s := invSqrtF s2
    ⟨FR.mul (fToR q.x) s, FR.mul (fToR q.y) s, FR.mul (fToR q.z) s⟩

/-- Model of source lines 231-237: the angular twist is
`getAxis(delta_rot) * getAngle(delta_rot) / dt`, componentwise. -/
noncomputable def angularTwist (deltaRot : Quat) (dt : ℚ) : Vec3R :=
  let angle := getAngle deltaRot
  let axis := getAxis deltaRot
  ⟨(FR.mul axis.x angle).divQ dt,
   (FR.mul axis.y angle).divQ dt,
   (FR.mul axis.z angle).divQ dt⟩

/-- Estimator status (`fovis::MotionEstimateStatusCode`). -/
inductive Status : Type where
  | NO_DATA : Status
  | SUCCESS : Status
  | INSUFFICIENT_INLIERS : Status
  | OPTIMIZATION_FAILURE : Status
  | REPROJECTION_ERROR : Status
deriving DecidableEq, Repr

/-- Persistent state of `OdometerBase` (the members touched by
`process`, `publishLastKnownTf` and `initOdometer`).  Times are rational
seconds; `0` is `ros::Time(0)`, the unset value (`isZero`). -/
structure OdomState : Type where
  /-- Whether `visual_odometer_` is non-null. -/
  voInit : Bool
  /-- The `reset_odometer_` flag. -/
  resetOdometer : Bool
  /-- `last_time_`, the time of the last successful fusion (0 = unset). -/
  lastTime : ℚ
  /-- `last_published_tf_time_`. -/
  lastPublishedTfTime : ℚ
  /-- `base_transform_`, the stored body-frame pose. -/
  baseTransform : Transform
  /-- `translation_correction_factor_` (finite, from the parameter server). -/
  tfFactor : ℚ
  /-- `initial_base_to_sensor_`, the anchor. -/
  initialBaseToSensor : Transform
  /-- `publish_tf_`. -/
  publishTf : Bool
deriving DecidableEq, Repr

/-- Diagnostic counters read off the estimator and copied verbatim into
the `FovisInfo` message (source lines 259-294). -/
structure DiagCounters : Type where
  changeReferenceFrame : Bool
  fastThreshold : ℤ
  numTotalDetectedKeypoints : ℕ
  numTotalKeypoints : ℕ
  numDetectedKeypointsPerLevel : List ℕ
  numKeypointsPerLevel : List ℕ
  numMatches : ℕ
  numInliers : ℕ
  numReprojectionFailures : ℕ
  motionEstimateValid : Bool
deriving DecidableEq, Repr

/-- Per-frame input to `process`: the image timestamp plus everything the
external estimator and the transform tree report for this frame.
`tfLookup` is the result of the body-to-sensor query at the
latest-available time (`none` when `canTransform` fails); `pose` and
`motion` are `getPose()` and `getMotionEstimate()` after `eigenToTF`;
`motionCov i j` is entry (row `i`, column `j`) of
`getMotionEstimateCov()`. -/
structure FrameInput : Type where
  stamp : ℚ
  status : Status
  pose : Transform
  motion : Transform
  motionCov : Fin 6 → Fin 6 → F
  tfLookup : Option Transform
  diag : DiagCounters

/-- A `geometry_msgs/Pose` as filled by `tf::poseTFToMsg` (default: all
components zero, including the orientation). -/
structure PoseQ : Type where
  position : Vec3
  orientation : Quat
deriving DecidableEq, Repr

/-- The default (zero) pose of a freshly constructed message. -/
def msgZeroPose : PoseQ := ⟨Vec3.zero, ⟨F.fin 0, F.fin 0, F.fin 0, F.fin 0⟩⟩

/-- Conversion `tf::poseTFToMsg`: the origin is copied, the orientation
goes through `getRotation()`. -/
def toPoseMsg (t : Transform) : PoseQ := ⟨t.origin, tfGetRotation t.rot⟩

/-- The `nav_msgs/Odometry` message as filled by `process`.  The flat
36-entry twist covariance mirrors the row-major `float64[36]` field. -/
structure OdomMsg : Type where
  stamp : ℚ
  pose : PoseQ
  twistLinear : Vec3
  twistAngular : Vec3R
  twistCov : Fin 36 → F

/-- The `geometry_msgs/PoseStamped` message. -/
structure PoseMsg : Type where
  stamp : ℚ
  pose : PoseQ
deriving DecidableEq, Repr

/-- A broadcast `tf::StampedTransform`. -/
structure StampedTf : Type where
  transform : Transform
  stamp : ℚ
deriving DecidableEq, Repr

/-- The `FovisInfo` diagnostics message. -/
structure InfoMsg : Type where
  stamp : ℚ
  motionEstimateStatusCode : Status
  diag : DiagCounters
deriving DecidableEq, Repr

/-- Everything one call to `process` publishes.  A `none` means the
corresponding message or broadcast was not emitted for this frame. -/
structure Output : Type where
  odomMsg : Option OdomMsg
  poseMsg : Option PoseMsg
  tfMsg : Option StampedTf
  infoMsg : Option InfoMsg

/-- Model of `loadParams` for `tf_factor` (source lines 352-356): default
1.0, and a configured value of exactly 0 is coerced to 1.0. -/
def loadTfFactor (configured : Option ℚ) : ℚ :=
  let v := configured.getD 1
  if v = 0 then 1 else v

/-- The state set up by the constructor (lines 43-61): identity
`base_transform_`, null odometer, cleared flags and times.  The anchor
member is uninitialized in the source until the first `initOdometer`;
identity stands in for it (it is overwritten before first use). -/
def initialState (tfFactorParam : Option ℚ) (publishTfParam : Bool) : OdomState :=
  { voInit := false
    resetOdometer := false
    lastTime := 0
    lastPublishedTfTime := 0
    baseTransform := Transform.id
    tfFactor := loadTfFactor tfFactorParam
    initialBaseToSensor := Transform.id
    publishTf := publishTfParam }

/-- Model of `initOdometer` (source lines 303-341) as far as it touches
the embedded state: the estimator context is (re)created, and the anchor
is looked up only on a true first run, not on a reset (lines 316-327). -/
def initOdometer (s : OdomState) (inp : FrameInput) : OdomState :=
  if s.resetOdometer then
    { s with voInit := true, resetOdometer := false }
  else
    { s with voInit := true, initialBaseToSensor := inp.tfLookup.getD Transform.id }

/-- The `FovisInfo` message built at lines 259-294. -/
def mkInfoMsg (inp : FrameInput) : InfoMsg :=
  { stamp := inp.stamp, motionEstimateStatusCode := inp.status, diag := inp.diag }

/-- Lines 120-125 of `process`: initialize the odometer when
`visual_odometer_` is null, otherwise leave the state alone. -/
def ensureInit (s : OdomState) (inp : FrameInput) : OdomState :=
  if s.voInit then s else initOdometer s inp

/-- Model of `process` (source lines 113-295).  One call consumes the
frame input and returns the new state together with the published
outputs.  The image conversion, feature visualization and the external
`processFrame` call itself are outside the spec's core; their results
enter through `FrameInput`. -/
noncomputable def process (s0 : OdomState) (inp : FrameInput) : OdomState × Output :=
  -- lines 120-125: lazily (re)initialize the odometer
  let s := ensureInit s0 inp
  -- lines 153-159: messages are default-constructed, then stamped
  let odom0 : OdomMsg :=
    { stamp := inp.stamp, pose := msgZeroPose, twistLinear := Vec3.zero,
      twistAngular := Vec3R.zero, twistCov := fun _ => F.fin 0 }
  let pose0 : PoseMsg := { stamp := inp.stamp, pose := msgZeroPose }
  if inp.status = Status.SUCCESS then
    let sensorPose := inp.pose
    -- lines 173-176: current body-to-sensor offset (identity fallback)
    let currentB2S := inp.tfLookup.getD Transform.id
    if nanCheckTf sensorPose then
      -- lines 178-196: re-anchor, drop the estimator, suppress all output
      ({ s with initialBaseToSensor := s.baseTransform.comp currentB2S,
                voInit := false, resetOdometer := true },
       { odomMsg := none, poseMsg := none, tfMsg := none, infoMsg := none })
    else
      -- lines 198-201: body pose, with the correction factor on the origin
      let bt0 := (s.initialBaseToSensor.comp sensorPose).comp currentB2S.inverse
      let bt : Transform := ⟨bt0.rot, bt0.origin.smul (F.fin s.tfFactor)⟩
      -- lines 204-209: transform broadcast
      let tfOut : Option StampedTf := if s.publishTf then some ⟨bt, inp.stamp⟩ else none
      -- lines 216-218: velocity baseline
      let dt : ℚ := if s.lastTime = 0 then 0 else inp.stamp - s.lastTime
      if 0 < dt then
        -- lines 220-243: twist from the sandwiched incremental motion
        let delta := (currentB2S.comp inp.motion).comp currentB2S.inverse
        let lin : Vec3 := ⟨delta.origin.x.divQ dt, delta.origin.y.divQ dt,
                           delta.origin.z.divQ dt⟩
        let ang := angularTwist (tfGetRotation delta.rot) dt
        let cov : Fin 36 → F := fun k =>
          inp.motionCov ⟨k.val % 6, Nat.mod_lt _ (by norm_num)⟩
                        ⟨k.val / 6, by omega⟩
        ({ s with baseTransform := bt, lastTime := inp.stamp,
                  lastPublishedTfTime := inp.stamp },
         { odomMsg := some { odom0 with pose := toPoseMsg bt, twistLinear := lin,
                                        twistAngular := ang, twistCov := cov },
           poseMsg := some { pose0 with pose := toPoseMsg bt },
           tfMsg := tfOut, infoMsg := some (mkInfoMsg inp) })
      else
        ({ s with baseTransform := bt, lastTime := inp.stamp,
                  lastPublishedTfTime := inp.stamp },
         { odomMsg := some { odom0 with pose := toPoseMsg bt },
           poseMsg := some { pose0 with pose := toPoseMsg bt },
           tfMsg := tfOut, infoMsg := some (mkInfoMsg inp) })
  else
    -- lines 249-256: failure frame, default messages still published
    ({ s with lastTime := 0 },
     { odomMsg := some odom0, poseMsg := some pose0, tfMsg := none,
       infoMsg := some (mkInfoMsg inp) })

/-- Model of `publishLastKnownTf` (source lines 28-39): when transform
publishing is on and more than 9 seconds have passed since the last
published transform, rebroadcast `base_transform_` stamped now and record
the publication time; otherwise do nothing. -/
def publishLastKnownTf (s : OdomState) (now : ℚ) : OdomState × Option StampedTf :=
  if s.publishTf ∧ 9 < now - s.lastPublishedTfTime then
    ({ s with lastPublishedTfTime := now }, some ⟨s.baseTransform, now⟩)
  else
    (s, none)

/-- The transform listener, modelled by the answers its two queries give
for each requested time (`none` stands for `ros::Time()`, the
latest-available time). -/
structure TfListener : Type where
  canTransform : Option ℚ → Bool
  lookupTransform : Option ℚ → Transform

/-- State of the `ROS_WARN_THROTTLE(10.0, ...)` macro: the time of the
last emitted warning, if any. -/
structure ThrottleState : Type where
  lastHit : Option ℚ
deriving DecidableEq, Repr

/-- Whether the 10-second throttle lets a warning through at `now`
(ROS semantics: fire on the first call, when the period has elapsed, or
when time jumped backwards). -/
def throttleFires (th : ThrottleState) (now : ℚ) : Bool :=
  match th.lastHit with
  | none => true
  | some l => decide (now < l) || decide (l + 10 ≤ now)

/-- Model of `getBaseToSensorTransform` (source lines 379-400).  Both the
availability check and the lookup are issued at the latest-available time
(`none`), not at `stamp`; on failure the identity transform is returned
and a warning, throttled to once per 10 seconds, is emitted.  The result
is the transform, whether a warning was emitted, and the new throttle
state. -/
def getBaseToSensorTransform (tfl : TfListener) (stamp : ℚ) (now : ℚ)
    (th : ThrottleState) : Transform × Bool × ThrottleState :=
  if tfl.canTransform none then
    (tfl.lookupTransform none, false, th)
  else
    let fire := throttleFires th now
    (Transform.id, fire, if fire then ⟨some now⟩ else th)

/-- The lookup result as `process` consumes it: `some` the looked-up
transform when available, `none` otherwise. -/
def tfLookupResult (tfl : TfListener) : Option Transform :=
  if tfl.canTransform none then some (tfl.lookupTransform none) else none

/-- The transform `process` uses is definable from the lookup result:
`getBaseToSensorTransform` returns exactly `tfLookupResult` with the
identity as fallback. -/
theorem getBaseToSensorTransform_fst (tfl : TfListener) (stamp now : ℚ)
    (th : ThrottleState) :
    (getBaseToSensorTransform tfl stamp now th).1 =
      (tfLookupResult tfl).getD Transform.id := by
  unfold getBaseToSensorTransform tfLookupResult
  by_cases h : tfl.canTransform none = true <;> simp [h]

/-- Folding `process` over a list of frames (the per-frame invocation of
the session), collecting every output. -/
noncomputable def runFrames (s : OdomState) : List FrameInput → OdomState × List Output
  | [] => (s, [])
  | inp :: rest =>
    let step := process s inp
    let tail := runFrames step.1 rest
    (tail.1, step.2 :: tail.2)

/-- A pure translation along X by a rational amount. -/
def translateX (d : ℚ) : Transform := Transform.ofQ 0 0 0 1 d 0 0

/-- Neutral diagnostic counters for concrete runs. -/
def diag0 : DiagCounters :=
  { changeReferenceFrame := false, fastThreshold := 10,
    numTotalDetectedKeypoints := 0, numTotalKeypoints := 0,
    numDetectedKeypointsPerLevel := [], numKeypointsPerLevel := [],
    numMatches := 0, numInliers := 0, numReprojectionFailures := 0,
    motionEstimateValid := true }

/-- A generic tracking state: odometer initialized, identity pose and
anchor, no velocity baseline, unit correction factor. -/
def trackingState : OdomState :=
  { voInit := true, resetOdometer := false, lastTime := 0,
    lastPublishedTfTime := 0, baseTransform := Transform.id, tfFactor := 1,
    initialBaseToSensor := Transform.id, publishTf := true }

/-- Initialization never touches the stored body pose. -/
theorem initOdometer_baseTransform (s : OdomState) (inp : FrameInput) :
    (initOdometer s inp).baseTransform = s.baseTransform := by
  unfold initOdometer
  by_cases h : s.resetOdometer <;> simp [h]

/-- Initialization never touches the fusion time. -/
theorem initOdometer_lastTime (s : OdomState) (inp : FrameInput) :
    (initOdometer s inp).lastTime = s.lastTime := by
  unfold initOdometer
  by_cases h : s.resetOdometer <;> simp [h]

/-- Pre-initialization (lines 120-125) never touches the stored body pose. -/
theorem ensureInit_baseTransform (s : OdomState) (inp : FrameInput) :
    (ensureInit s inp).baseTransform = s.baseTransform := by
  unfold ensureInit
  by_cases h : s.voInit <;> simp [h, initOdometer_baseTransform]

/-- Pre-initialization never touches the fusion time. -/
theorem ensureInit_lastTime (s : OdomState) (inp : FrameInput) :
    (ensureInit s inp).lastTime = s.lastTime := by
  unfold ensureInit
  by_cases h : s.voInit <;> simp [h, initOdometer_lastTime]

/-- On an already-initialized state, pre-initialization is the identity. -/
theorem ensureInit_of_voInit (s : OdomState) (inp : FrameInput)
    (h : s.voInit = true) : ensureInit s inp = s := by
  unfold ensureInit
  simp [h]

/-- C7: on every frame whose estimator status is a failure code, the
stored body-frame pose is left unchanged, the last-successful-fusion time
is cleared to the unset value 0, the failure code is recorded in the
diagnostics message, and the trajectory and pose messages are still
published carrying the default zero pose and twist. -/
theorem c7_failure_frame (s : OdomState) (inp : FrameInput)
    (h : inp.status ≠ Status.SUCCESS) :
    (process s inp).1.baseTransform = s.baseTransform
    ∧ (process s inp).1.lastTime = 0
    ∧ (process s inp).2.odomMsg =
        some { stamp := inp.stamp, pose := msgZeroPose, twistLinear := Vec3.zero,
               twistAngular := Vec3R.zero, twistCov := fun _ => F.fin 0 }
    ∧ (process s inp).2.poseMsg = some { stamp := inp.stamp, pose := msgZeroPose }
    ∧ (process s inp).2.infoMsg = some (mkInfoMsg inp)
    ∧ (mkInfoMsg inp).motionEstimateStatusCode = inp.status := by
  unfold process
  simp [h, ensureInit_baseTransform, ensureInit_lastTime, mkInfoMsg]

/-- Concrete instantiation of `c7_failure_frame`. -/
theorem c7_witness :
    (process trackingState
      { stamp := 4, status := Status.NO_DATA, pose := Transform.id,
        motion := Transform.id, motionCov := fun _ _ => F.fin 0,
        tfLookup := some Transform.id, diag := diag0 }).1.baseTransform =
      trackingState.baseTransform
    ∧ (process trackingState
      { stamp := 4, status := Status.NO_DATA, pose := Transform.id,
        motion := Transform.id, motionCov := fun _ _ => F.fin 0,
        tfLookup := some Transform.id, diag := diag0 }).1.lastTime = 0 := by
  have h := c7_failure_frame trackingState
    { stamp := 4, status := Status.NO_DATA, pose := Transform.id,
      motion := Transform.id, motionCov := fun _ _ => F.fin 0,
      tfLookup := some Transform.id, diag := diag0 } (by simp)
  exact ⟨h.1, h.2.1⟩

/-- C8: the keepalive republishes only when transform publishing is
enabled and more than the 9.0-second idle interval has elapsed since the
last published transform; when it fires it rebroadcasts exactly the last
known body-frame pose with the current time as a fresh stamp, and it
never modifies the stored pose, the last-fusion time, or any other
trajectory state. -/
theorem c8_keepalive (s : OdomState) (now : ℚ) :
    ((publishLastKnownTf s now).2 ≠ none ↔
        s.publishTf = true ∧ 9 < now - s.lastPublishedTfTime)
    ∧ (s.publishTf = true → 9 < now - s.lastPublishedTfTime →
        (publishLastKnownTf s now).2 = some ⟨s.baseTransform, now⟩
        ∧ (publishLastKnownTf s now).1.lastPublishedTfTime = now)
    ∧ (publishLastKnownTf s now).1.baseTransform = s.baseTransform
    ∧ (publishLastKnownTf s now).1.lastTime = s.lastTime
    ∧ (publishLastKnownTf s now).1.initialBaseToSensor = s.initialBaseToSensor
    ∧ (publishLastKnownTf s now).1.voInit = s.voInit
    ∧ (publishLastKnownTf s now).1.resetOdometer = s.resetOdometer
    ∧ (publishLastKnownTf s now).1.tfFactor = s.tfFactor
    ∧ (publishLastKnownTf s now).1.publishTf = s.publishTf := by
  unfold publishLastKnownTf
  by_cases h : s.publishTf = true ∧ 9 < now - s.lastPublishedTfTime
  · simp [h]
  · rw [if_neg h]
    exact ⟨by simpa using h, fun hp hq => absurd ⟨hp, hq⟩ h,
           rfl, rfl, rfl, rfl, rfl, rfl, rfl⟩

/-- Concrete instantiation of `c8_keepalive`: after a 10-second idle gap
the keepalive fires and rebroadcasts the stored pose with a fresh stamp;
the stored pose itself is untouched. -/
theorem c8_witness :
    (publishLastKnownTf trackingState 10).2 =
      some ⟨trackingState.baseTransform, 10⟩
    ∧ (publishLastKnownTf trackingState 10).1.baseTransform =
      trackingState.baseTransform := by
  have h := c8_keepalive trackingState 10
  exact ⟨(h.2.1 rfl (by norm_num [trackingState])).1, h.2.2.1⟩

/-- C9: for every body-to-sensor lookup, an unavailable transform
(availability check fails) yields the identity transform and a warning
throttled to at most one per 10 seconds; an available transform is
returned as-is with no warning; and firing records the warning time, so
two consecutive warnings in forward-running time are at least 10 seconds
apart. -/
theorem c9_lookup_fallback (tfl : TfListener) (stamp now : ℚ)
    (th : ThrottleState) :
    (tfl.canTransform none = false →
      (getBaseToSensorTransform tfl stamp now th).1 = Transform.id)
    ∧ (tfl.canTransform none = true →
      (getBaseToSensorTransform tfl stamp now th).1 = tfl.lookupTransform none
      ∧ (getBaseToSensorTransform tfl stamp now th).2.1 = false)
    ∧ ((getBaseToSensorTransform tfl stamp now th).2.1 = true →
      tfl.canTransform none = false
      ∧ (getBaseToSensorTransform tfl stamp now th).2.2 = ⟨some now⟩)
    ∧ (∀ l : ℚ, th.lastHit = some l → l ≤ now →
      (getBaseToSensorTransform tfl stamp now th).2.1 = true → 10 ≤ now - l) := by
  unfold getBaseToSensorTransform
  by_cases h : tfl.canTransform none = true
  · simp [h]
  · simp only [Bool.not_eq_true] at h
    refine ⟨fun _ => by simp [h], fun hc => by simp [h] at hc, ?_, ?_⟩
    · intro hf
      refine ⟨h, ?_⟩
      simp [h] at hf ⊢
      simp [hf]
    · intro l hl hln hf
      simp [h, throttleFires, hl] at hf
      rcases hf with hf | hf
      · linarith
      · linarith

/-- Concrete instantiation of `c9_lookup_fallback`: a disconnected tree
yields the identity transform, and with a warning last emitted at time 0
a new warning at time 10 respects the 10-second throttle. -/
theorem c9_witness :
    (getBaseToSensorTransform ⟨fun _ => false, fun _ => Transform.id⟩ 3 10
        ⟨some 0⟩).1 = Transform.id
    ∧ ((getBaseToSensorTransform ⟨fun _ => false, fun _ => Transform.id⟩ 3 10
        ⟨some 0⟩).2.1 = true → 10 ≤ (10 : ℚ) - 0) := by
  have h := c9_lookup_fallback ⟨fun _ => false, fun _ => Transform.id⟩ 3 10 ⟨some 0⟩
  exact ⟨h.1 rfl, fun hf => h.2.2.2 0 rfl (by norm_num) hf⟩

/-- C10: the stamp argument of `getBaseToSensorTransform` is never used
in the transform-tree query: the result is invariant under changing the
stamp, and depends on the listener only through its answers at the
latest-available time (the `none` query time, `ros::Time()`). -/
theorem c10_stamp_unused :
    (∀ (tfl : TfListener) (s1 s2 now : ℚ) (th : ThrottleState),
      getBaseToSensorTransform tfl s1 now th =
        getBaseToSensorTransform tfl s2 now th)
    ∧ (∀ tfl1 tfl2 : TfListener,
      tfl1.canTransform none = tfl2.canTransform none →
      tfl1.lookupTransform none = tfl2.lookupTransform none →
      ∀ (s now : ℚ) (th : ThrottleState),
        getBaseToSensorTransform tfl1 s now th =
          getBaseToSensorTransform tfl2 s now th) := by
  constructor
  · intro tfl s1 s2 now th
    rfl
  · intro tfl1 tfl2 hcan hlook s now th
    unfold getBaseToSensorTransform
    rw [hcan, hlook]

/-- Concrete instantiation of `c10_stamp_unused`: two listeners agreeing
at the latest-available time give identical results at different stamps,
even though one of them answers differently at every explicit time. -/
theorem c10_witness :
    getBaseToSensorTransform
        ⟨fun o => o.isNone, fun _ => Transform.id⟩ 5 0 ⟨none⟩ =
      getBaseToSensorTransform
        ⟨fun o => o.isNone, fun o => if o.isNone then Transform.id
                                     else translateX 1⟩ 7 0 ⟨none⟩ := by
  have h := c10_stamp_unused
  have h2 := h.2 ⟨fun o => o.isNone, fun _ => Transform.id⟩
    ⟨fun o => o.isNone, fun o => if o.isNone then Transform.id
                                 else translateX 1⟩ rfl (by simp) 7 0 ⟨none⟩
  have h1 := h.1 ⟨fun o => o.isNone, fun _ => Transform.id⟩ 5 7 0 ⟨none⟩
  exact h1.trans h2

/-- A success frame: unit X step in sensor pose, identity offsets. -/
def inpUnitX : FrameInput :=
  { stamp := 1, status := Status.SUCCESS, pose := translateX 1,
    motion := Transform.id, motionCov := fun _ _ => F.fin 0,
    tfLookup := some Transform.id, diag := diag0 }

/-- A failure frame. -/
def inpFail : FrameInput :=
  { stamp := 4, status := Status.NO_DATA, pose := Transform.id,
    motion := Transform.id, motionCov := fun _ _ => F.fin 0,
    tfLookup := some Transform.id, diag := diag0 }

/-- On a valid success frame of an initialized odometer with a strictly
older fusion baseline, the odometry message is published with the
body pose, the sandwiched twist and the copied covariance (the dt-positive
branch of lines 198-247). -/
theorem process_odom_dtpos (s : OdomState) (inp : FrameInput)
    (hvo : s.voInit = true) (hst : inp.status = Status.SUCCESS)
    (hnan : nanCheckTf inp.pose = false) (h0 : ¬ s.lastTime = 0)
    (hlt : s.lastTime < inp.stamp) :
    (process s inp).2.odomMsg =
      some { stamp := inp.stamp,
             pose := toPoseMsg
               ⟨((s.initialBaseToSensor.comp inp.pose).comp
                   (inp.tfLookup.getD Transform.id).inverse).rot,
                ((s.initialBaseToSensor.comp inp.pose).comp
                   (inp.tfLookup.getD Transform.id).inverse).origin.smul
                  (F.fin s.tfFactor)⟩,
             twistLinear :=
               ⟨(((inp.tfLookup.getD Transform.id).comp inp.motion).comp
                   (inp.tfLookup.getD Transform.id).inverse).origin.x.divQ
                  (inp.stamp - s.lastTime),
                (((inp.tfLookup.getD Transform.id).comp inp.motion).comp
                   (inp.tfLookup.getD Transform.id).inverse).origin.y.divQ
                  (inp.stamp - s.lastTime),
                (((inp.tfLookup.getD Transform.id).comp inp.motion).comp
                   (inp.tfLookup.getD Transform.id).inverse).origin.z.divQ
                  (inp.stamp - s.lastTime)⟩,
             twistAngular :=
               angularTwist
                 (tfGetRotation
                   (((inp.tfLookup.getD Transform.id).comp inp.motion).comp
                     (inp.tfLookup.getD Transform.id).inverse).rot)
                 (inp.stamp - s.lastTime),
             twistCov := fun k =>
               inp.motionCov ⟨k.val % 6, Nat.mod_lt _ (by norm_num)⟩
                             ⟨k.val / 6, by omega⟩ } := by
  unfold process
  rw [ensureInit_of_voInit s inp hvo]
  have hdt : (0 : ℚ) < inp.stamp - s.lastTime := by linarith
  simp [hst, hnan, h0, hdt]

/-- C3 (confirmed): on every valid success frame the stored body pose is
`Anchor.comp sensorPose |>.comp (currentBodyToSensorOffset.inverse)` with
the correction factor applied to the origin only (rotation untouched);
the loaded factor defaults to 1 and a configured 0 is coerced to 1; and
with factor 2 a unit X step under identity offsets doubles to a 2-meter X
displacement with identity orientation. -/
theorem c3_pose_formula :
    (∀ (s : OdomState) (inp : FrameInput), s.voInit = true →
      inp.status = Status.SUCCESS → nanCheckTf inp.pose = false →
      (process s inp).1.baseTransform =
        { rot := ((s.initialBaseToSensor.comp inp.pose).comp
            (inp.tfLookup.getD Transform.id).inverse).rot,
          origin := ((s.initialBaseToSensor.comp inp.pose).comp
            (inp.tfLookup.getD Transform.id).inverse).origin.smul
              (F.fin s.tfFactor) })
    ∧ loadTfFactor (some 0) = 1
    ∧ loadTfFactor none = 1
    ∧ (process { trackingState with tfFactor := 2 } inpUnitX).1.baseTransform.origin
        = Vec3.ofQ 2 0 0
    ∧ (process { trackingState with tfFactor := 2 } inpUnitX).1.baseTransform.rot
        = Quat.id := by
  refine ⟨?_, by norm_num [loadTfFactor], by norm_num [loadTfFactor], ?_, ?_⟩
  · intro s inp hvo hst hnan
    unfold process
    rw [ensureInit_of_voInit s inp hvo]
    simp only [hst, hnan, Bool.false_eq_true, if_true, if_false, reduceIte]
    split_ifs <;> rfl
  · norm_num [process, ensureInit, trackingState, inpUnitX, translateX,
      nanCheckTf, tfGetRotation, Transform.ofQ, Transform.comp,
      Transform.inverse, Transform.id, Quat.ofQ, Quat.id, Quat.mul, Quat.conj,
      Quat.rotate, Vec3.ofQ, Vec3.zero, Vec3.add, Vec3.neg, Vec3.smul,
      Vec3.vadd_def, Vec3.vneg_def, F.add_def, F.mul_def, F.neg_def, F.sub_def,
      F.add, F.mul, F.neg, F.div, F.isnan, Option.getD]
  · norm_num [process, ensureInit, trackingState, inpUnitX, translateX,
      nanCheckTf, tfGetRotation, Transform.ofQ, Transform.comp,
      Transform.inverse, Transform.id, Quat.ofQ, Quat.id, Quat.mul, Quat.conj,
      Quat.rotate, Vec3.ofQ, Vec3.zero, Vec3.add, Vec3.neg, Vec3.smul,
      Vec3.vadd_def, Vec3.vneg_def, F.add_def, F.mul_def, F.neg_def, F.sub_def,
      F.add, F.mul, F.neg, F.div, F.isnan, Option.getD]

/-- Concrete instantiation of the general formula of `c3_pose_formula`:
with identity anchor and offsets and factor 1 the stored pose after a
unit X step is the unit X translation itself. -/
theorem c3_witness :
    (process trackingState inpUnitX).1.baseTransform =
      { rot := ((trackingState.initialBaseToSensor.comp inpUnitX.pose).comp
          (inpUnitX.tfLookup.getD Transform.id).inverse).rot,
        origin := ((trackingState.initialBaseToSensor.comp inpUnitX.pose).comp
          (inpUnitX.tfLookup.getD Transform.id).inverse).origin.smul
            (F.fin trackingState.tfFactor) } := by
  exact c3_pose_formula.1 trackingState inpUnitX rfl rfl (by
    norm_num [nanCheckTf, tfGetRotation, inpUnitX, translateX, Transform.ofQ,
      Quat.ofQ, Vec3.ofQ, F.isnan])

/-- An asymmetric covariance input: entry (row 0, column 1) is 5, all
other entries are 0. -/
def covAsym : Fin 6 → Fin 6 → F := fun i j => if i = 0 ∧ j = 1 then F.fin 5 else F.fin 0

/-- A tracking state with a velocity baseline one second old. -/
def s4 : OdomState := { trackingState with lastTime := 1 }

/-- A success frame carrying the asymmetric covariance. -/
def inp4 : FrameInput :=
  { stamp := 2, status := Status.SUCCESS, pose := translateX 1,
    motion := Transform.id, motionCov := covAsym,
    tfLookup := some Transform.id, diag := diag0 }

/-- C4 counterexample: with the asymmetric estimator covariance `covAsym`
(entry (0,1) equals 5), the published row-major twist covariance carries 0
at flat index 1, i.e. output entry (row 0, column 1) is 0 and not the
estimator entry (row 0, column 1): the copy is not row/column order
preserving. -/
theorem c4_counterexample :
    ((process s4 inp4).2.odomMsg.map fun m => m.twistCov ⟨1, by norm_num⟩)
      = some (F.fin 0)
    ∧ inp4.motionCov 0 1 = F.fin 5
    ∧ (F.fin 0 : F) ≠ F.fin 5 := by
  refine ⟨?_, by norm_num [inp4, covAsym], by simp⟩
  rw [process_odom_dtpos s4 inp4 rfl rfl
    (by norm_num [inp4, nanCheckTf, tfGetRotation, translateX, Transform.ofQ,
      Quat.ofQ, Vec3.ofQ, F.isnan])
    (by norm_num [s4, trackingState]) (by norm_num [s4, trackingState, inp4])]
  simp only [Option.map_some']
  norm_num [inp4, covAsym, Fin.ext_iff]

/-- C4 (amended): whenever velocity is computed, the published flat
row-major twist covariance at index `i*6+j` (row `i`, column `j`) equals
the estimator covariance entry (row `j`, column `i`) - the element-wise
copy is transposed, which coincides with the claim exactly when the
estimator covariance is symmetric. -/
theorem c4_cov_transposed (s : OdomState) (inp : FrameInput)
    (hvo : s.voInit = true) (hst : inp.status = Status.SUCCESS)
    (hnan : nanCheckTf inp.pose = false) (h0 : ¬ s.lastTime = 0)
    (hlt : s.lastTime < inp.stamp) :
    ∀ m, (process s inp).2.odomMsg = some m →
      ∀ i j : Fin 6,
        m.twistCov ⟨i.val * 6 + j.val, by omega⟩ = inp.motionCov j i := by
  intro m hm i j
  rw [process_odom_dtpos s inp hvo hst hnan h0 hlt] at hm
  obtain rfl : _ = m := Option.some.inj hm
  have hj : (i.val * 6 + j.val) % 6 = j.val := by omega
  have hi : (i.val * 6 + j.val) / 6 = i.val := by omega
  show inp.motionCov ⟨(i.val * 6 + j.val) % 6, _⟩ ⟨(i.val * 6 + j.val) / 6, _⟩
      = inp.motionCov j i
  congr 1 <;> [exact Fin.ext hj; exact Fin.ext hi]

/-- Concrete instantiation of `c4_cov_transposed`: at (row 0, column 1)
the published covariance equals the estimator entry (row 1, column 0). -/
theorem c4_witness :
    ((process s4 inp4).2.odomMsg.map fun m => m.twistCov ⟨1, by norm_num⟩)
      = some (inp4.motionCov 1 0) := by
  have hm := process_odom_dtpos s4 inp4 rfl rfl
    (by norm_num [inp4, nanCheckTf, tfGetRotation, translateX, Transform.ofQ,
      Quat.ofQ, Vec3.ofQ, F.isnan])
    (by norm_num [s4, trackingState]) (by norm_num [s4, trackingState, inp4])
  have h := c4_cov_transposed s4 inp4 rfl rfl
    (by norm_num [inp4, nanCheckTf, tfGetRotation, translateX, Transform.ofQ,
      Quat.ofQ, Vec3.ofQ, F.isnan])
    (by norm_num [s4, trackingState]) (by norm_num [s4, trackingState, inp4])
    _ hm 0 1
  rw [hm]
  simp only [Option.map_some']
  exact congrArg (fun v => some v) h

/-- C6 (amended): whenever the estimator fails, or the fusion baseline is
unset (`last_time_` zero), or the frame stamp is not past the baseline
(`dt <= 0`), any published odometry message carries the default zero twist
and an unpopulated (all-zero) twist covariance.  The NaN-reset path does
not clear the baseline, so the first success after a reset is not covered
(see the counterexample). -/
theorem c6_no_velocity (s : OdomState) (inp : FrameInput)
    (h : inp.status ≠ Status.SUCCESS ∨ s.lastTime = 0 ∨ inp.stamp ≤ s.lastTime) :
    ∀ m, (process s inp).2.odomMsg = some m →
      m.twistLinear = Vec3.zero ∧ m.twistAngular = Vec3R.zero
      ∧ ∀ k, m.twistCov k = F.fin 0 := by
  intro m hm
  unfold process at hm
  by_cases hst : inp.status = Status.SUCCESS
  · have hd : inp.status ≠ Status.SUCCESS → False := fun hc => hc hst
    rcases h with h | h
    · exact absurd hst h
    · by_cases hnan : nanCheckTf inp.pose = true
      · simp [hst, hnan] at hm
      · have hdt : ¬ (0 : ℚ) <
            (if (ensureInit s inp).lastTime = 0 then (0 : ℚ)
             else inp.stamp - (ensureInit s inp).lastTime) := by
          rw [ensureInit_lastTime]
          rcases h with h | h
          · simp [h]
          · split_ifs
            · norm_num
            · linarith
        simp only [hst, reduceIte, hnan, Bool.false_eq_true, if_false,
          if_neg hdt] at hm
        obtain rfl : _ = m := Option.some.inj hm
        exact ⟨rfl, rfl, fun k => rfl⟩
  · simp only [hst, if_false, reduceIte] at hm
    obtain rfl : _ = m := Option.some.inj hm
    exact ⟨rfl, rfl, fun k => rfl⟩

/-- Concrete instantiation of `c6_no_velocity`: a failure frame publishes
the default zero twist. -/
theorem c6_witness :
    ((process trackingState inpFail).2.odomMsg.map fun m => m.twistLinear)
      = some Vec3.zero := by
  have hm : (process trackingState inpFail).2.odomMsg =
      some { stamp := inpFail.stamp, pose := msgZeroPose,
             twistLinear := Vec3.zero, twistAngular := Vec3R.zero,
             twistCov := fun _ => F.fin 0 } := by
    simp [process, ensureInit, trackingState, inpFail]
  have h := c6_no_velocity trackingState inpFail
    (Or.inl (by simp [inpFail])) _ hm
  have h2 : ((process trackingState inpFail).2.odomMsg.map fun m => m.twistLinear)
      = some { stamp := inpFail.stamp, pose := msgZeroPose,
               twistLinear := Vec3.zero, twistAngular := Vec3R.zero,
               twistCov := fun _ => F.fin 0 : OdomMsg }.twistLinear := by
    rw [hm]
    rfl
  exact h2.trans (congrArg (fun v => some v) h.1)

/-- The state after a normal success at time 1 (baseline set), about to
receive a NaN frame. -/
def s6 : OdomState := { trackingState with lastTime := 1 }

/-- A success frame whose sensor pose carries a NaN translation: it
triggers the reset path. -/
def inp6nan : FrameInput :=
  { stamp := 6/5, status := Status.SUCCESS,
    pose := ⟨Quat.id, ⟨F.nan, F.fin 0, F.fin 0⟩⟩,
    motion := Transform.id, motionCov := fun _ _ => F.fin 0,
    tfLookup := some Transform.id, diag := diag0 }

/-- The success frame following the reset: a 1-meter X step half a second
after the pre-reset baseline. -/
def inp6good : FrameInput :=
  { stamp := 3/2, status := Status.SUCCESS, pose := translateX 1,
    motion := translateX 1, motionCov := fun _ _ => F.fin 0,
    tfLookup := some Transform.id, diag := diag0 }

/-- C6 counterexample: the NaN-reset path leaves `last_time_` at its
pre-reset value 1, so the first successful frame after the reset (at time
3/2, the first success since the estimator context was discarded) computes
a velocity of 2 m/s from the stale baseline instead of leaving the twist
at its zero default. -/
theorem c6_counterexample :
    (process s6 inp6nan).1.voInit = false
    ∧ (process s6 inp6nan).1.resetOdometer = true
    ∧ (process s6 inp6nan).1.lastTime = 1
    ∧ (((process (process s6 inp6nan).1 inp6good).2.odomMsg).map
        fun m => m.twistLinear.x) = some (F.fin 2)
    ∧ (F.fin 2 : F) ≠ F.fin 0 := by
  have h1 : process s6 inp6nan =
      ({ s6 with initialBaseToSensor := s6.baseTransform.comp Transform.id,
                 voInit := false, resetOdometer := true },
       { odomMsg := none, poseMsg := none, tfMsg := none, infoMsg := none }) := by
    norm_num [process, ensureInit, s6, trackingState, inp6nan, nanCheckTf,
      tfGetRotation, F.isnan]
  rw [h1]
  refine ⟨rfl, rfl, rfl, ?_, by simp⟩
  norm_num [process, ensureInit, initOdometer, s6, trackingState, inp6good,
    translateX, nanCheckTf, tfGetRotation, toPoseMsg, msgZeroPose,
    Transform.ofQ, Transform.comp, Transform.inverse, Transform.id,
    Quat.ofQ, Quat.id, Quat.mul, Quat.conj, Quat.negQ, Quat.rotate,
    Vec3.ofQ, Vec3.zero, Vec3.add, Vec3.neg, Vec3.smul,
    Vec3.vadd_def, Vec3.vneg_def, Quat.qmul_def,
    F.add_def, F.mul_def, F.neg_def, F.sub_def,
    F.add, F.mul, F.neg, F.div, F.divQ, F.isnan]

/-- A scalar is a rational (finite, exactly representable) value. -/
def F.IsRat (a : F) : Prop := ∃ q : ℚ, a = F.fin q

/-- All three vector components rational. -/
def Vec3.IsRat (v : Vec3) : Prop := v.x.IsRat ∧ v.y.IsRat ∧ v.z.IsRat

/-- A well-formed rotation: rational components with nonzero norm (the
data model's valid-orientation invariant, up to scale). -/
def Quat.Wf (q : Quat) : Prop :=
  ∃ x y z w : ℚ, q = Quat.ofQ x y z w ∧ x * x + y * y + z * z + w * w ≠ 0

/-- A well-formed transform: well-formed rotation, rational origin. -/
def Transform.Wf (t : Transform) : Prop := t.rot.Wf ∧ t.origin.IsRat

/-- Every component of a pose message finite. -/
def PoseQ.AllFin (p : PoseQ) : Prop :=
  p.position.x.isFin = true ∧ p.position.y.isFin = true ∧ p.position.z.isFin = true
  ∧ p.orientation.x.isFin = true ∧ p.orientation.y.isFin = true
  ∧ p.orientation.z.isFin = true ∧ p.orientation.w.isFin = true

/-- Every component of a transform finite. -/
def Transform.AllFin (t : Transform) : Prop :=
  t.origin.x.isFin = true ∧ t.origin.y.isFin = true ∧ t.origin.z.isFin = true
  ∧ t.rot.x.isFin = true ∧ t.rot.y.isFin = true
  ∧ t.rot.z.isFin = true ∧ t.rot.w.isFin = true

/-- Rational scalars are closed under addition. -/
theorem F.IsRat.ratAdd {a b : F} (ha : a.IsRat) (hb : b.IsRat) : (a + b).IsRat := by
  obtain ⟨x, rfl⟩ := ha
  obtain ⟨y, rfl⟩ := hb
  exact ⟨x + y, rfl⟩

/-- Rational scalars are closed under multiplication. -/
theorem F.IsRat.ratMul {a b : F} (ha : a.IsRat) (hb : b.IsRat) : (a * b).IsRat := by
  obtain ⟨x, rfl⟩ := ha
  obtain ⟨y, rfl⟩ := hb
  exact ⟨x * y, rfl⟩

/-- Rational scalars are closed under negation. -/
theorem F.IsRat.ratNeg {a : F} (ha : a.IsRat) : (-a).IsRat := by
  obtain ⟨x, rfl⟩ := ha
  exact ⟨-x, rfl⟩

/-- Rational scalars are closed under subtraction. -/
theorem F.IsRat.sub {a b : F} (ha : a.IsRat) (hb : b.IsRat) : (a - b).IsRat :=
  ha.ratAdd hb.ratNeg

/-- A rational scalar is finite. -/
theorem F.IsRat.isFin {a : F} (ha : a.IsRat) : a.isFin = true := by
  obtain ⟨x, rfl⟩ := ha
  rfl

/-- A rational scalar is not NaN. -/
theorem F.IsRat.isnan {a : F} (ha : a.IsRat) : a.isnan = false := by
  obtain ⟨x, rfl⟩ := ha
  rfl

/-- Rational vectors are closed under addition. -/
theorem Vec3.IsRat.ratAddV {a b : Vec3} (ha : a.IsRat) (hb : b.IsRat) :
    (a + b).IsRat :=
  ⟨ha.1.ratAdd hb.1, ha.2.1.ratAdd hb.2.1, ha.2.2.ratAdd hb.2.2⟩

/-- Rational vectors are closed under negation. -/
theorem Vec3.IsRat.ratNegV {a : Vec3} (ha : a.IsRat) : (-a).IsRat :=
  ⟨ha.1.ratNeg, ha.2.1.ratNeg, ha.2.2.ratNeg⟩

/-- Rational vectors are closed under scaling by a rational factor. -/
theorem Vec3.IsRat.smulFin {a : Vec3} (ha : a.IsRat) (c : ℚ) :
    (a.smul (F.fin c)).IsRat :=
  ⟨ha.1.ratMul ⟨c, rfl⟩, ha.2.1.ratMul ⟨c, rfl⟩, ha.2.2.ratMul ⟨c, rfl⟩⟩

/-- Hamilton product of two rational quaternion embeddings, componentwise. -/
theorem Quat.mul_ofQ (x1 y1 z1 w1 x2 y2 z2 w2 : ℚ) :
    (Quat.ofQ x1 y1 z1 w1).mul (Quat.ofQ x2 y2 z2 w2) =
      Quat.ofQ (w1 * x2 + x1 * w2 + y1 * z2 + -(z1 * y2))
               (w1 * y2 + -(x1 * z2) + y1 * w2 + z1 * x2)
               (w1 * z2 + x1 * y2 + -(y1 * x2) + z1 * w2)
               (w1 * w2 + -(x1 * x2) + -(y1 * y2) + -(z1 * z2)) := rfl

/-- The Euler four-square identity for the Hamilton product. -/
theorem quat_normSq_mul (x1 y1 z1 w1 x2 y2 z2 w2 : ℚ) :
    (w1 * x2 + x1 * w2 + y1 * z2 + -(z1 * y2)) *
      (w1 * x2 + x1 * w2 + y1 * z2 + -(z1 * y2))
    + (w1 * y2 + -(x1 * z2) + y1 * w2 + z1 * x2) *
      (w1 * y2 + -(x1 * z2) + y1 * w2 + z1 * x2)
    + (w1 * z2 + x1 * y2 + -(y1 * x2) + z1 * w2) *
      (w1 * z2 + x1 * y2 + -(y1 * x2) + z1 * w2)
    + (w1 * w2 + -(x1 * x2) + -(y1 * y2) + -(z1 * z2)) *
      (w1 * w2 + -(x1 * x2) + -(y1 * y2) + -(z1 * z2))
    = (x1 * x1 + y1 * y1 + z1 * z1 + w1 * w1) *
      (x2 * x2 + y2 * y2 + z2 * z2 + w2 * w2) := by ring

/-- Well-formed rotations are closed under the Hamilton product. -/
theorem Quat.Wf.wfMul {p q : Quat} (hp : p.Wf) (hq : q.Wf) : (p.mul q).Wf := by
  obtain ⟨x1, y1, z1, w1, rfl, h1⟩ := hp
  obtain ⟨x2, y2, z2, w2, rfl, h2⟩ := hq
  rw [Quat.mul_ofQ]
  refine ⟨_, _, _, _, rfl, ?_⟩
  rw [quat_normSq_mul]
  exact mul_ne_zero h1 h2

/-- Well-formed rotations are closed under conjugation. -/
theorem Quat.Wf.conj {q : Quat} (hq : q.Wf) : q.conj.Wf := by
  obtain ⟨x, y, z, w, rfl, h⟩ := hq
  refine ⟨-x, -y, -z, w, rfl, ?_⟩
  have he : -x * -x + -y * -y + -z * -z + w * w = x * x + y * y + z * z + w * w := by
    ring
  rw [he]
  exact h

/-- Rotating a rational vector by a well-formed rotation yields a rational
vector (the `2/length2` normalization is finite because the norm is
nonzero). -/
theorem Quat.Wf.rotate {q : Quat} {v : Vec3} (hq : q.Wf) (hv : v.IsRat) :
    (q.rotate v).IsRat := by
  obtain ⟨x, y, z, w, rfl, h⟩ := hq
  obtain ⟨⟨a, ha⟩, ⟨b, hb⟩, ⟨c, hc⟩⟩ := hv
  simp only [Quat.rotate, Quat.ofQ, ha, hb, hc, F.mul_def, F.add_def,
    F.neg_def, F.sub_def, F.mul, F.add, F.neg, F.div]
  rw [if_neg h]
  simp only [F.mul, F.add, F.neg]
  exact ⟨⟨_, rfl⟩, ⟨_, rfl⟩, ⟨_, rfl⟩⟩

/-- Well-formed transforms are closed under composition. -/
theorem Transform.Wf.comp {a b : Transform} (ha : a.Wf) (hb : b.Wf) :
    (a.comp b).Wf :=
  ⟨ha.1.wfMul hb.1, (ha.1.rotate hb.2).ratAddV ha.2⟩

/-- Well-formed transforms are closed under inversion. -/
theorem Transform.Wf.inverse {a : Transform} (ha : a.Wf) : a.inverse.Wf :=
  ⟨ha.1.conj, ha.1.conj.rotate ha.2.ratNegV⟩

/-- The identity transform is well-formed. -/
theorem Transform.id_wf : Transform.id.Wf :=
  ⟨⟨0, 0, 0, 1, rfl, by norm_num⟩, ⟨0, rfl⟩, ⟨0, rfl⟩, ⟨0, rfl⟩⟩

/-- The matrix-to-quaternion extraction of a well-formed rotation has
rational components (it only flips signs). -/
theorem tfGetRotation_isRat {q : Quat} (hq : q.Wf) :
    (tfGetRotation q).x.IsRat ∧ (tfGetRotation q).y.IsRat
    ∧ (tfGetRotation q).z.IsRat ∧ (tfGetRotation q).w.IsRat := by
  obtain ⟨x, y, z, w, rfl, h⟩ := hq
  simp only [tfGetRotation, Quat.ofQ]
  split_ifs <;>
    exact ⟨⟨_, rfl⟩, ⟨_, rfl⟩, ⟨_, rfl⟩, ⟨_, rfl⟩⟩

/-- The NaN check accepts every well-formed sensor pose. -/
theorem nanCheckTf_false_of_wf {t : Transform} (ht : t.Wf) :
    nanCheckTf t = false := by
  obtain ⟨hr, ⟨a, ha⟩, ⟨b, hb⟩, ⟨c, hc⟩⟩ := ht
  obtain ⟨hx, hy, hz, hw⟩ := tfGetRotation_isRat hr
  unfold nanCheckTf
  simp only [ha, hb, hc]
  rw [hx.isnan, hy.isnan, hz.isnan, hw.isnan]
  simp [F.isnan]

/-- The NaN-spreading of the extraction, summarized: the extracted
quaternion has a NaN component exactly when the stored rotation has any
non-finite component. -/
theorem tfGetRotation_nan_iff (q : Quat) :
    ((tfGetRotation q).x.isnan || (tfGetRotation q).y.isnan
      || (tfGetRotation q).z.isnan || (tfGetRotation q).w.isnan)
      = !q.allFin := by
  obtain ⟨qx, qy, qz, qw⟩ := q
  cases qx <;> cases qy <;> cases qz <;> cases qw <;>
    simp only [tfGetRotation, Quat.allFin, F.isFin, F.isnan, Quat.ofQ,
      Quat.negQ, F.neg_def, F.neg, Bool.and_true, Bool.and_false,
      Bool.not_true, Bool.not_false, Bool.or_false, Bool.or_true,
      Bool.true_and, Bool.false_and, Bool.true_or, Bool.false_or] <;>
    split_ifs <;>
    simp [F.isnan, F.neg]

/-- The NaN check, characterized: it fires exactly on a NaN translation
component or a non-finite (NaN or infinite) rotation component. -/
theorem nanCheckTf_eq (t : Transform) :
    nanCheckTf t = (t.origin.x.isnan || t.origin.y.isnan || t.origin.z.isnan
      || !t.rot.allFin) := by
  unfold nanCheckTf
  rw [← tfGetRotation_nan_iff t.rot]
  simp [Bool.or_assoc]

/-- Pre-initialization keeps the anchor well-formed: an anchor refreshed
on a true first run is the looked-up transform or the identity fallback. -/
theorem ensureInit_anchor_wf (s : OdomState) (inp : FrameInput)
    (ha : s.initialBaseToSensor.Wf) (hl : ∀ t, inp.tfLookup = some t → t.Wf) :
    (ensureInit s inp).initialBaseToSensor.Wf := by
  unfold ensureInit initOdometer
  by_cases hv : s.voInit = true
  · simp only [hv, if_true]
    exact ha
  · simp only [Bool.not_eq_true] at hv
    by_cases hr : s.resetOdometer = true
    · simp [hv, hr]
      exact ha
    · simp only [Bool.not_eq_true] at hr
      simp [hv, hr]
      cases hL : inp.tfLookup with
      | none => exact Transform.id_wf
      | some t => exact hl t hL

/-- The components of a well-formed rotation are rational. -/
theorem Quat.Wf.comps {q : Quat} (h : q.Wf) :
    q.x.IsRat ∧ q.y.IsRat ∧ q.z.IsRat ∧ q.w.IsRat := by
  obtain ⟨x, y, z, w, rfl, h0⟩ := h
  exact ⟨⟨x, rfl⟩, ⟨y, rfl⟩, ⟨z, rfl⟩, ⟨w, rfl⟩⟩

/-- A well-formed transform has only finite components. -/
theorem Transform.Wf.allFinT {t : Transform} (ht : t.Wf) : t.AllFin := by
  obtain ⟨hx, hy, hz, hw⟩ := ht.1.comps
  exact ⟨ht.2.1.isFin, ht.2.2.1.isFin, ht.2.2.2.isFin,
         hx.isFin, hy.isFin, hz.isFin, hw.isFin⟩

/-- Converting a well-formed transform to a pose message keeps every
component finite. -/
theorem toPoseMsg_allFin {t : Transform} (ht : t.Wf) : (toPoseMsg t).AllFin := by
  obtain ⟨hx, hy, hz, hw⟩ := tfGetRotation_isRat ht.1
  exact ⟨ht.2.1.isFin, ht.2.2.1.isFin, ht.2.2.2.isFin,
         hx.isFin, hy.isFin, hz.isFin, hw.isFin⟩

/-- The state after a valid success frame: the scaled body pose is stored
and both times advance to the frame stamp (the two velocity branches
write the same state). -/
theorem process_state_success (s : OdomState) (inp : FrameInput)
    (hst : inp.status = Status.SUCCESS) (hnan : nanCheckTf inp.pose = false) :
    (process s inp).1 =
      { ensureInit s inp with
        baseTransform :=
          ⟨(((ensureInit s inp).initialBaseToSensor.comp inp.pose).comp
              (inp.tfLookup.getD Transform.id).inverse).rot,
           (((ensureInit s inp).initialBaseToSensor.comp inp.pose).comp
              (inp.tfLookup.getD Transform.id).inverse).origin.smul
             (F.fin (ensureInit s inp).tfFactor)⟩,
        lastTime := inp.stamp,
        lastPublishedTfTime := inp.stamp } := by
  unfold process
  simp only [hst, reduceIte, hnan, Bool.false_eq_true, if_false]
  split_ifs <;> rfl

/-- The published poses of a valid success frame: the pose message and
the odometry message both carry the stored body pose via `poseTFToMsg`,
and the transform broadcast carries it exactly when enabled. -/
theorem process_output_success (s : OdomState) (inp : FrameInput)
    (hst : inp.status = Status.SUCCESS) (hnan : nanCheckTf inp.pose = false) :
    ((process s inp).2.odomMsg.map fun m => m.pose) =
      some (toPoseMsg
        ⟨(((ensureInit s inp).initialBaseToSensor.comp inp.pose).comp
            (inp.tfLookup.getD Transform.id).inverse).rot,
         (((ensureInit s inp).initialBaseToSensor.comp inp.pose).comp
            (inp.tfLookup.getD Transform.id).inverse).origin.smul
           (F.fin (ensureInit s inp).tfFactor)⟩)
    ∧ (process s inp).2.poseMsg =
      some { stamp := inp.stamp,
             pose := toPoseMsg
               ⟨(((ensureInit s inp).initialBaseToSensor.comp inp.pose).comp
                   (inp.tfLookup.getD Transform.id).inverse).rot,
                (((ensureInit s inp).initialBaseToSensor.comp inp.pose).comp
                   (inp.tfLookup.getD Transform.id).inverse).origin.smul
                  (F.fin (ensureInit s inp).tfFactor)⟩ }
    ∧ (process s inp).2.tfMsg =
      (if (ensureInit s inp).publishTf then
        some ⟨⟨(((ensureInit s inp).initialBaseToSensor.comp inp.pose).comp
                  (inp.tfLookup.getD Transform.id).inverse).rot,
               (((ensureInit s inp).initialBaseToSensor.comp inp.pose).comp
                  (inp.tfLookup.getD Transform.id).inverse).origin.smul
                 (F.fin (ensureInit s inp).tfFactor)⟩, inp.stamp⟩
       else none) := by
  unfold process
  simp only [hst, reduceIte, hnan, Bool.false_eq_true, if_false]
  split_ifs <;> exact ⟨rfl, rfl, rfl⟩

/-- One valid success frame from a well-formed state publishes only
finite poses and keeps the state well-formed. -/
theorem process_wf_step (s : OdomState) (inp : FrameInput)
    (hb : s.baseTransform.Wf) (ha : s.initialBaseToSensor.Wf)
    (hst : inp.status = Status.SUCCESS) (hp : inp.pose.Wf)
    (hl : ∀ t, inp.tfLookup = some t → t.Wf) :
    (process s inp).1.baseTransform.Wf
    ∧ (process s inp).1.initialBaseToSensor.Wf
    ∧ (∀ m, (process s inp).2.odomMsg = some m → m.pose.AllFin)
    ∧ (∀ m, (process s inp).2.poseMsg = some m → m.pose.AllFin)
    ∧ (∀ t, (process s inp).2.tfMsg = some t → t.transform.AllFin) := by
  have ha1 := ensureInit_anchor_wf s inp ha hl
  have hcur : (inp.tfLookup.getD Transform.id).Wf := by
    cases hL : inp.tfLookup with
    | none => exact Transform.id_wf
    | some t => exact hl t hL
  have hnan := nanCheckTf_false_of_wf hp
  have hbt0 : (((ensureInit s inp).initialBaseToSensor.comp inp.pose).comp
      (inp.tfLookup.getD Transform.id).inverse).Wf :=
    (ha1.comp hp).comp hcur.inverse
  have hbt : (Transform.mk
      (((ensureInit s inp).initialBaseToSensor.comp inp.pose).comp
        (inp.tfLookup.getD Transform.id).inverse).rot
      ((((ensureInit s inp).initialBaseToSensor.comp inp.pose).comp
        (inp.tfLookup.getD Transform.id).inverse).origin.smul
        (F.fin (ensureInit s inp).tfFactor))).Wf :=
    ⟨hbt0.1, hbt0.2.smulFin _⟩
  have hout := process_output_success s inp hst hnan
  have hstate := process_state_success s inp hst hnan
  refine ⟨?_, ?_, ?_, ?_, ?_⟩
  · rw [hstate]
    exact hbt
  · rw [hstate]
    exact ha1
  · intro m hm
    have h2 := hout.1
    rw [hm] at h2
    simp only [Option.map_some'] at h2
    rw [Option.some.inj h2]
    exact toPoseMsg_allFin hbt
  · intro m hm
    rw [hout.2.1] at hm
    obtain rfl : _ = m := Option.some.inj hm
    exact toPoseMsg_allFin hbt
  · intro t ht
    rw [hout.2.2] at ht
    by_cases hpub : (ensureInit s inp).publishTf = true
    · rw [if_pos hpub] at ht
      obtain rfl : _ = t := Option.some.inj ht
      exact hbt.allFinT
    · rw [if_neg hpub] at ht
      cases ht

/-- Folding valid, well-formed success frames from a well-formed state
only ever publishes finite poses. -/
theorem runFrames_wf : ∀ (frames : List FrameInput) (s : OdomState),
    s.baseTransform.Wf → s.initialBaseToSensor.Wf →
    (∀ f ∈ frames, f.status = Status.SUCCESS ∧ f.pose.Wf
      ∧ (∀ t, f.tfLookup = some t → t.Wf)) →
    ∀ out ∈ (runFrames s frames).2,
      (∀ m, out.odomMsg = some m → m.pose.AllFin)
      ∧ (∀ m, out.poseMsg = some m → m.pose.AllFin)
      ∧ (∀ t, out.tfMsg = some t → t.transform.AllFin)
  | [], s, _, _, _ => by
    intro out hout
    simp [runFrames] at hout
  | inp :: rest, s, hb, ha, hf => by
    have hhead := hf inp (by simp)
    have hstep := process_wf_step s inp hb ha hhead.1 hhead.2.1 hhead.2.2
    intro out hout
    simp only [runFrames, List.mem_cons] at hout
    rcases hout with rfl | hout
    · exact ⟨hstep.2.2.1, hstep.2.2.2.1, hstep.2.2.2.2⟩
    · exact runFrames_wf rest (process s inp).1 hstep.1 hstep.2.1
        (fun f hf2 => hf f (by simp [hf2])) out hout

/-- C1 (amended): a sensor pose rejected by the NaN check (NaN
translation or non-finite rotation component) is suppressed entirely -
no odometry, pose, transform or diagnostics output; and over every
sequence of success frames whose estimator poses are finite with valid
orientations (and finite transform lookups), every published body-frame
pose - odometry message, pose message and transform broadcast - has only
finite components.  (An infinite translation component, by contrast,
passes the check and is propagated: see the counterexample.) -/
theorem c1_finite_pose :
    (∀ (s : OdomState) (inp : FrameInput), inp.status = Status.SUCCESS →
      nanCheckTf inp.pose = true →
      (process s inp).2.odomMsg = none ∧ (process s inp).2.poseMsg = none
      ∧ (process s inp).2.tfMsg = none ∧ (process s inp).2.infoMsg = none)
    ∧ (∀ (frames : List FrameInput) (s : OdomState),
      s.baseTransform.Wf → s.initialBaseToSensor.Wf →
      (∀ f ∈ frames, f.status = Status.SUCCESS ∧ f.pose.Wf
        ∧ (∀ t, f.tfLookup = some t → t.Wf)) →
      ∀ out ∈ (runFrames s frames).2,
        (∀ m, out.odomMsg = some m → m.pose.AllFin)
        ∧ (∀ m, out.poseMsg = some m → m.pose.AllFin)
        ∧ (∀ t, out.tfMsg = some t → t.transform.AllFin)) := by
  constructor
  · intro s inp hst hnan
    unfold process
    simp [hst, hnan]
  · exact runFrames_wf

/-- A success frame whose sensor pose has an infinite X translation. -/
def inpInfX : FrameInput :=
  { stamp := 1, status := Status.SUCCESS,
    pose := ⟨Quat.id, ⟨F.pinf, F.fin 0, F.fin 0⟩⟩,
    motion := Transform.id, motionCov := fun _ _ => F.fin 0,
    tfLookup := some Transform.id, diag := diag0 }

/-- C1 counterexample: the estimator reports a success pose whose X
translation is positive infinity - a non-finite value.  The NaN check
passes it, and the published odometry pose carries that infinity: a
non-finite estimator value is propagated into the published output. -/
theorem c1_counterexample :
    ((process trackingState inpInfX).2.odomMsg.map fun m => m.pose.position.x)
      = some F.pinf
    ∧ inpInfX.pose.origin.x = F.pinf
    ∧ F.pinf.isFin = false := by
  refine ⟨?_, rfl, rfl⟩
  norm_num [process, ensureInit, trackingState, inpInfX, nanCheckTf,
    tfGetRotation, toPoseMsg, msgZeroPose, Transform.comp, Transform.inverse,
    Transform.id, Quat.ofQ, Quat.id, Quat.mul, Quat.conj, Quat.negQ,
    Quat.rotate, Vec3.ofQ, Vec3.zero, Vec3.add, Vec3.neg, Vec3.smul,
    Vec3.vadd_def, Vec3.vneg_def, Quat.qmul_def, F.add_def, F.mul_def,
    F.neg_def, F.sub_def, F.add, F.mul, F.neg, F.div, F.isnan]

/-- Concrete instantiation of `c1_finite_pose`: a success frame whose
pose carries a NaN translation produces no output at all. -/
theorem c1_witness :
    (process trackingState inp6nan).2.odomMsg = none
    ∧ (process trackingState inp6nan).2.poseMsg = none
    ∧ (process trackingState inp6nan).2.tfMsg = none
    ∧ (process trackingState inp6nan).2.infoMsg = none :=
  c1_finite_pose.1 trackingState inp6nan rfl (by
    norm_num [nanCheckTf, tfGetRotation, inp6nan, Quat.id, F.isnan])

/-- C2 (amended): on a success frame whose sensor pose fails the NaN
check - a NaN translation component, or a non-finite rotation component
(the check reads the rotation through the matrix-quaternion extraction,
which turns any non-finite rotation component into NaN) - `process`
captures a new anchor equal to the last stored body pose composed with
the current body-to-sensor offset, discards the estimator context (so the
next frame reinitializes, keeping the new anchor), raises the reset flag,
leaves the stored pose and fusion time untouched, and suppresses all four
outputs.  The final conjunct pins down the trigger exactly; an infinite
translation component does not fire it (see the counterexample). -/
theorem c2_nan_reset (s : OdomState) (inp : FrameInput)
    (hst : inp.status = Status.SUCCESS) (hnan : nanCheckTf inp.pose = true) :
    (process s inp).1.initialBaseToSensor =
      s.baseTransform.comp (inp.tfLookup.getD Transform.id)
    ∧ (process s inp).1.voInit = false
    ∧ (process s inp).1.resetOdometer = true
    ∧ (process s inp).1.baseTransform = s.baseTransform
    ∧ (process s inp).1.lastTime = s.lastTime
    ∧ (process s inp).2.odomMsg = none
    ∧ (process s inp).2.poseMsg = none
    ∧ (process s inp).2.tfMsg = none
    ∧ (process s inp).2.infoMsg = none
    ∧ (∀ inp2, (initOdometer (process s inp).1 inp2).voInit = true
        ∧ (initOdometer (process s inp).1 inp2).initialBaseToSensor
            = (process s inp).1.initialBaseToSensor)
    ∧ (∀ t : Transform, nanCheckTf t =
        (t.origin.x.isnan || t.origin.y.isnan || t.origin.z.isnan
          || !t.rot.allFin)) := by
  have hsp : (process s inp).1 =
      { ensureInit s inp with
        initialBaseToSensor :=
          (ensureInit s inp).baseTransform.comp (inp.tfLookup.getD Transform.id),
        voInit := false, resetOdometer := true } := by
    unfold process
    simp [hst, hnan]
  rw [hsp]
  refine ⟨?_, rfl, rfl, ensureInit_baseTransform s inp, ensureInit_lastTime s inp,
          ?_, ?_, ?_, ?_, ?_, nanCheckTf_eq⟩
  · show (ensureInit s inp).baseTransform.comp _ = _
    rw [ensureInit_baseTransform]
  · unfold process
    simp [hst, hnan]
  · unfold process
    simp [hst, hnan]
  · unfold process
    simp [hst, hnan]
  · unfold process
    simp [hst, hnan]
  · intro inp2
    unfold initOdometer
    simp

/-- Concrete instantiation of `c2_nan_reset`: a NaN translation in the
sensor pose discards the odometer and re-anchors at the stored pose
composed with the current offset. -/
theorem c2_witness :
    (process trackingState inp6nan).1.voInit = false
    ∧ (process trackingState inp6nan).1.resetOdometer = true
    ∧ (process trackingState inp6nan).1.initialBaseToSensor =
        trackingState.baseTransform.comp (inp6nan.tfLookup.getD Transform.id)
    ∧ (process trackingState inp6nan).2.odomMsg = none := by
  have h := c2_nan_reset trackingState inp6nan rfl (by
    norm_num [nanCheckTf, tfGetRotation, inp6nan, Quat.id, F.isnan])
  exact ⟨h.2.1, h.2.2.1, h.1, h.2.2.2.2.2.1⟩

/-- C2 counterexample: an infinite (non-NaN) X translation in the sensor
pose of a success frame does not trigger the reset path at all - the
estimator context is kept, no re-anchoring happens, and the frame's
output is published rather than suppressed; yet the component is
non-finite. -/
theorem c2_counterexample :
    (process trackingState inpInfX).1.resetOdometer = false
    ∧ (process trackingState inpInfX).1.voInit = true
    ∧ (process trackingState inpInfX).2.odomMsg ≠ none
    ∧ inpInfX.pose.origin.x = F.pinf
    ∧ F.pinf.isFin = false := by
  have hnan : nanCheckTf inpInfX.pose = false := by
    norm_num [nanCheckTf, tfGetRotation, inpInfX, Quat.id, Quat.ofQ, F.isnan]
  have hsp := process_state_success trackingState inpInfX rfl hnan
  have hout := process_output_success trackingState inpInfX rfl hnan
  refine ⟨?_, ?_, ?_, rfl, rfl⟩
  · rw [hsp]
    rfl
  · rw [hsp]
    rfl
  · intro hc
    rw [hc] at hout
    simp at hout

/-- Modelled from the spec's words (claim C5): angular velocity as
(rotation axis × rotation angle) / dt in the minimal-angle representation
of the incremental rotation, angle in (-pi, pi].  A representative with
nonnegative scalar part already has extracted angle 2*acos(w) in [0, pi];
one with negative scalar part is negated first (same rotation, minimal
angle). -/
noncomputable def specMinAngleTwist (q : Quat) (dt : ℚ) : Vec3R :=
  let qm := if q.w.ltQ 0 then q.negQ else q
  angularTwist qm dt

/-- Tracking state with baseline at time 2 (set by the previous success). -/
def s5ex : OdomState := { trackingState with lastTime := 2 }

/-- The third frame of the spec's example scenario: another 1-meter X
step, half a second after the baseline. -/
def inp5ex : FrameInput :=
  { stamp := 5/2, status := Status.SUCCESS, pose := translateX 2,
    motion := translateX 1, motionCov := fun _ _ => F.fin 0,
    tfLookup := some Transform.id, diag := diag0 }

/-- C5 (amended): when velocity is computed, the published twist is
derived from the body-frame delta `currentB2S ∘ motion ∘ currentB2S⁻¹`:
linear velocity is the delta translation divided by dt, and angular
velocity is `getAxis(q) * getAngle(q) / dt` for the delta quaternion `q`
as extracted by the library - with angle `2*acos(w)` in [0, 2π], which is
the minimal-angle representation only when the extracted scalar part is
nonnegative (see the counterexample for the divergence).  In the spec's
example scenario, two successive 1-meter X steps half a second apart give
twist linear X of 2 m/s. -/
theorem c5_twist_formula :
    (∀ (s : OdomState) (inp : FrameInput),
      s.voInit = true → inp.status = Status.SUCCESS →
      nanCheckTf inp.pose = false → ¬ s.lastTime = 0 → s.lastTime < inp.stamp →
      ∀ m, (process s inp).2.odomMsg = some m →
        m.twistLinear =
          ⟨(((inp.tfLookup.getD Transform.id).comp inp.motion).comp
              (inp.tfLookup.getD Transform.id).inverse).origin.x.divQ
             (inp.stamp - s.lastTime),
           (((inp.tfLookup.getD Transform.id).comp inp.motion).comp
              (inp.tfLookup.getD Transform.id).inverse).origin.y.divQ
             (inp.stamp - s.lastTime),
           (((inp.tfLookup.getD Transform.id).comp inp.motion).comp
              (inp.tfLookup.getD Transform.id).inverse).origin.z.divQ
             (inp.stamp - s.lastTime)⟩
        ∧ m.twistAngular =
            angularTwist
              (tfGetRotation
                (((inp.tfLookup.getD Transform.id).comp inp.motion).comp
                  (inp.tfLookup.getD Transform.id).inverse).rot)
              (inp.stamp - s.lastTime))
    ∧ ((process s5ex inp5ex).2.odomMsg.map fun m => m.twistLinear.x)
        = some (F.fin 2) := by
  constructor
  · intro s inp hvo hst hnan h0 hlt m hm
    rw [process_odom_dtpos s inp hvo hst hnan h0 hlt] at hm
    obtain rfl : _ = m := Option.some.inj hm
    exact ⟨rfl, rfl⟩
  · norm_num [process, ensureInit, s5ex, trackingState, inp5ex, translateX,
      nanCheckTf, tfGetRotation, toPoseMsg, msgZeroPose,
      Transform.ofQ, Transform.comp, Transform.inverse, Transform.id,
      Quat.ofQ, Quat.id, Quat.mul, Quat.conj, Quat.negQ, Quat.rotate,
      Vec3.ofQ, Vec3.zero, Vec3.add, Vec3.neg, Vec3.smul,
      Vec3.vadd_def, Vec3.vneg_def, Quat.qmul_def,
      F.add_def, F.mul_def, F.neg_def, F.sub_def,
      F.add, F.mul, F.neg, F.div, F.divQ, F.isnan]

/-- Concrete instantiation of `c5_twist_formula`: in the example frame
the published linear twist X component is the delta X translation over
dt. -/
theorem c5_witness :
    ((process s5ex inp5ex).2.odomMsg.map fun m => m.twistLinear.x) =
      some ((((inp5ex.tfLookup.getD Transform.id).comp inp5ex.motion).comp
          (inp5ex.tfLookup.getD Transform.id).inverse).origin.x.divQ
        (inp5ex.stamp - s5ex.lastTime)) := by
  have hn : nanCheckTf inp5ex.pose = false := by
    norm_num [nanCheckTf, tfGetRotation, inp5ex, translateX, Transform.ofQ,
      Quat.ofQ, Vec3.ofQ, F.isnan]
  obtain ⟨m, hm⟩ : ∃ m, (process s5ex inp5ex).2.odomMsg = some m :=
    ⟨_, process_odom_dtpos s5ex inp5ex rfl rfl hn
      (by norm_num [s5ex, trackingState])
      (by norm_num [s5ex, trackingState, inp5ex])⟩
  have h := (c5_twist_formula.1 s5ex inp5ex rfl rfl hn
    (by norm_num [s5ex, trackingState]) (by norm_num [s5ex, trackingState, inp5ex])
    m hm).1
  rw [hm]
  simp only [Option.map_some']
  rw [h]

/-- The incremental rotation of the C5 counterexample: the unit
quaternion (2/3, 2/3, 0, -1/3).  Its scalar part is negative but its
largest axis component is positive, so the matrix-quaternion extraction
returns it unchanged; it is a rotation by 2*arccos(1/3) (about 2.46 rad)
about the negated axis, and is exactly what the estimator-side conversion
produces for that rotation. -/
def q5 : Quat := Quat.ofQ (2/3) (2/3) 0 (-1/3)

/-- Tracking state with baseline at time 1. -/
def s5 : OdomState := { trackingState with lastTime := 1 }

/-- A success frame at time 2 whose incremental motion is the pure
rotation `q5`, under identity offsets. -/
def inp5 : FrameInput :=
  { stamp := 2, status := Status.SUCCESS, pose := translateX 1,
    motion := ⟨q5, Vec3.zero⟩, motionCov := fun _ _ => F.fin 0,
    tfLookup := some Transform.id, diag := diag0 }

/-- C5 counterexample: for the delta rotation `q5` the published angular
twist X component differs from the minimal-angle-representation value the
claim prescribes (the code publishes a positive X component from an angle
exceeding pi, the minimal representation a negative one), and the
extracted angle `2*arccos(-1/3)` indeed exceeds pi while the minimal
representation's angle `2*arccos(1/3)` lies within (-pi, pi]. -/
theorem c5_counterexample :
    ((process s5 inp5).2.odomMsg.map fun m => m.twistAngular.x)
      ≠ some ((specMinAngleTwist
          (tfGetRotation (((inp5.tfLookup.getD Transform.id).comp inp5.motion).comp
            (inp5.tfLookup.getD Transform.id).inverse).rot)
          (inp5.stamp - s5.lastTime)).x)
    ∧ 2 * Real.arccos (1/3) ≤ Real.pi
    ∧ Real.pi < 2 * Real.arccos (-(1/3)) := by
  refine ⟨?_, ?_, ?_⟩
  · intro hc
    norm_num [process, ensureInit, s5, trackingState, inp5, q5, translateX,
      nanCheckTf, tfGetRotation, toPoseMsg, msgZeroPose,
      Transform.ofQ, Transform.comp, Transform.inverse, Transform.id,
      Quat.ofQ, Quat.id, Quat.mul, Quat.conj, Quat.negQ, Quat.rotate,
      Vec3.ofQ, Vec3.zero, Vec3.add, Vec3.neg, Vec3.smul,
      Vec3.vadd_def, Vec3.vneg_def, Quat.qmul_def,
      F.add_def, F.mul_def, F.neg_def, F.sub_def,
      F.add, F.mul, F.neg, F.div, F.divQ, F.isnan, F.ltQ,
      specMinAngleTwist, angularTwist, getAngle, getAxis, acosF, invSqrtF,
      fToR, FR.mul, FR.divQ] at hc
    have hs : (0:ℝ) < Real.sqrt 9 / Real.sqrt 8 :=
      div_pos (Real.sqrt_pos.mpr (by norm_num)) (Real.sqrt_pos.mpr (by norm_num))
    have ha1 : (0:ℝ) < Real.arccos (-(1/3)) :=
      Real.arccos_pos.mpr (by norm_num)
    have ha2 : (0:ℝ) < Real.arccos (1/3) :=
      Real.arccos_pos.mpr (by norm_num)
    have hL : (0:ℝ) < 2/3 * (Real.sqrt 9 / Real.sqrt 8) * (2 * Real.arccos (-(1/3))) :=
      mul_pos (mul_pos (by norm_num) hs) (by linarith)
    have hR : (0:ℝ) < 2/3 * (Real.sqrt 9 / Real.sqrt 8) * (2 * Real.arccos (1/3)) :=
      mul_pos (mul_pos (by norm_num) hs) (by linarith)
    linarith
  · have h1 : Real.arccos (1/3) ≤ Real.pi / 2 :=
      Real.arccos_le_pi_div_two.mpr (by norm_num)
    linarith
  · have h1 : Real.pi / 2 < Real.arccos (-(1/3)) := by
      refine lt_of_not_le fun hle => ?_
      have h2 : (0:ℝ) ≤ -(1/3) := Real.arccos_le_pi_div_two.mp hle
      norm_num at h2
    linarith
